import Mathlib

/-!
Shallow embedding of the canvas rendering backend in
`src/components/canvas/tiny_skia_backend.rs` (the `TinySkiaBackend`,
`PixmapTarget`, `PathBuilder` and associated impls), together with proofs
about the claims of the specification.

Modelling conventions:
* `f32` scalars are modelled as exact rationals (`ℚ`).  All operations this
  development reasons about (field copies, comparisons, additions and
  subtractions of the small constants appearing in the claims) are exact in
  `f32`, so the rational model is faithful on the inputs the theorems touch.
* `u8` pixel bytes are modelled as `Nat`.
* Rust functions that can `panic!` (through `.unwrap()`) are embedded as
  functions into `RustResult`, where `RustResult.panicked` marks the abort.
* tiny_skia itself is an external dependency (the spec treats rasterization
  as an opaque capability).  Where its behaviour decides a claim we either
  quantify over it (the mask rasterizer of `push_clip`/`pop_clip`) or model
  the documented behaviour explicitly with a doc comment saying so
  (`PixmapRef.from_bytes`, the gradient constructors).
-/

namespace ServoTinySkia

/-- Embedding of `f32` scalars, modelled as exact rationals. -/
abbrev F32 : Type := ℚ

/-- Result of running a Rust function that may `panic!` via `.unwrap()`:
`ok` is normal return, `panicked` models the process abort.  A panic is not
a value returned to the caller; it unwinds/aborts. -/
inductive RustResult (α : Type) : Type
  | ok (a : α)
  | panicked
deriving DecidableEq

/-- Embedding of `canvas_traits::canvas::CompositionStyle` (12 cases), from the `match`
in `TinySkiaBackend::set_global_composition`. -/
inductive CompositionStyle : Type
  | SrcIn | SrcOut | SrcOver | SrcAtop
  | DestIn | DestOut | DestOver | DestAtop
  | Copy | Lighter | Xor | Clear
deriving DecidableEq, Fintype

/-- Embedding of `canvas_traits::canvas::BlendingStyle` (15 cases). -/
inductive BlendingStyle : Type
  | Multiply | Screen | Overlay | Darken | Lighten
  | ColorDodge | ColorBurn | HardLight | SoftLight
  | Difference | Exclusion | Hue | Saturation | Color | Luminosity
deriving DecidableEq, Fintype

/-- Embedding of `canvas_traits::canvas::CompositionOrBlending`. -/
inductive CompositionOrBlending : Type
  | Composition (c : CompositionStyle)
  | Blending (b : BlendingStyle)
deriving DecidableEq

/-- Embedding of `tiny_skia::BlendMode` (the target enum of the composition mapping). -/
inductive BlendMode : Type
  | Clear | Source | Destination | SourceOver | DestinationOver
  | SourceIn | DestinationIn | SourceOut | DestinationOut
  | SourceAtop | DestinationAtop | Xor | Plus | Modulate
  | Screen | Overlay | Darken | Lighten | ColorDodge | ColorBurn
  | HardLight | SoftLight | Difference | Exclusion | Multiply
  | Hue | Saturation | Color | Luminosity
deriving DecidableEq

/-- The pure mapping at the heart of
`TinySkiaBackend::set_global_composition`: the exhaustive `match` from
`CompositionOrBlending` to `tiny_skia::BlendMode`
(tiny_skia_backend.rs lines 160-192). -/
def composition_blend_mode : CompositionOrBlending → BlendMode
  | .Composition c => match c with
    | .SrcIn => .SourceIn
    | .SrcOut => .SourceOut
    | .SrcOver => .SourceOver
    | .SrcAtop => .SourceAtop
    | .DestIn => .DestinationIn
    | .DestOut => .DestinationOut
    | .DestOver => .DestinationOver
    | .DestAtop => .DestinationAtop
    | .Copy => .Source
    | .Lighter => .Plus
    | .Xor => .Xor
    | .Clear => .Clear
  | .Blending b => match b with
    | .Multiply => .Multiply
    | .Screen => .Screen
    | .Overlay => .Overlay
    | .Darken => .Darken
    | .Lighten => .Lighten
    | .ColorDodge => .ColorDodge
    | .ColorBurn => .ColorBurn
    | .HardLight => .HardLight
    | .SoftLight => .SoftLight
    | .Difference => .Difference
    | .Exclusion => .Exclusion
    | .Hue => .Hue
    | .Saturation => .Saturation
    | .Color => .Color
    | .Luminosity => .Luminosity

/-- A 2×3 affine transform as stored by tiny_skia (`tiny_skia::Transform`). -/
structure TSTransform : Type where
  sx : F32
  ky : F32
  kx : F32
  sy : F32
  tx : F32
  ty : F32
deriving DecidableEq

/-- Embedding of `euclid::Transform2D<f32>`: six coefficients `m11 m12 m21 m22 m31 m32`. -/
structure Transform2D : Type where
  m11 : F32
  m12 : F32
  m21 : F32
  m22 : F32
  m31 : F32
  m32 : F32
deriving DecidableEq

/-- Embedding of `ToTinySkia for Transform2D<f32>` (tiny_skia_backend.rs lines 870-883). -/
def Transform2D.to_tiny_skia (t : Transform2D) : TSTransform :=
  { sx := t.m11, ky := t.m12, kx := t.m21, sy := t.m22, tx := t.m31, ty := t.m32 }

/-- Embedding of `tiny_skia::Transform::identity()`. -/
def TSTransform.identity : TSTransform :=
  { sx := 1, ky := 0, kx := 0, sy := 1, tx := 0, ty := 0 }

/-- A point (`tiny_skia::Point`). -/
structure TSPoint : Type where
  x : F32
  y : F32
deriving DecidableEq

/-- A color built by `tiny_skia::Color::from_rgba8` — we record the four
8-bit channels it was built from. -/
structure TSColor : Type where
  red : Nat
  green : Nat
  blue : Nat
  alpha : Nat
deriving DecidableEq

/-- A gradient stop (`tiny_skia::GradientStop`). -/
structure TSGradientStop : Type where
  offset : F32
  color : TSColor
deriving DecidableEq

/-- Embedding of `tiny_skia::SpreadMode`. -/
inductive SpreadMode : Type
  | Pad | Reflect | Repeat
deriving DecidableEq

/-- Embedding of `tiny_skia::FilterQuality`. -/
inductive FilterQuality : Type
  | Nearest | Bilinear | Bicubic
deriving DecidableEq

/-- Embedding of `tiny_skia::PixmapRef<'a>`: a borrowed view over a pixel buffer with
declared dimensions.  Its construction (`from_bytes`) is bounds-checked. -/
structure PixmapRef : Type where
  data : List Nat
  width : Nat
  height : Nat
deriving DecidableEq

/-- Embedding of `tiny_skia::PixmapRef::from_bytes(data, width, height)`.
Modelled from the spec: tiny_skia is an external dependency; per its
documented contract (and spec §4.2/§7(d)) the constructor succeeds only
when both dimensions are nonzero and the buffer length is exactly
`width * height * 4` bytes, returning `None` otherwise — in particular it
never constructs a view over a buffer shorter than its declared
dimensions. -/
def PixmapRef.from_bytes (data : List Nat) (width height : Nat) : Option PixmapRef :=
  if width ≠ 0 ∧ height ≠ 0 ∧ data.length = width * height * 4 then
    some { data := data, width := width, height := height }
  else
    none

/-- Embedding of `tiny_skia::Shader<'a>`: the four shader variants. -/
inductive Shader : Type
  | SolidColor (c : TSColor)
  | LinearGradient (start stop : TSPoint) (stops : List TSGradientStop)
      (mode : SpreadMode) (transform : TSTransform)
  | RadialGradient (start stop : TSPoint) (radius : F32)
      (stops : List TSGradientStop) (mode : SpreadMode) (transform : TSTransform)
  | Pattern (pixmap : PixmapRef) (mode : SpreadMode) (quality : FilterQuality)
      (opacity : F32) (transform : TSTransform)
deriving DecidableEq

/-- Embedding of `tiny_skia::Paint<'a>` (the fields used by this backend). -/
structure TSPaint : Type where
  shader : Shader
  blend_mode : BlendMode
  anti_alias : Bool
  force_hq_pipeline : Bool
deriving DecidableEq

/-- Embedding of `canvas_data::DrawOptions<'a>`: the backend-tagged draw options; this
backend only ever constructs the `TinySkia` variant. -/
inductive DrawOptions : Type
  | TinySkia (paint : TSPaint)
deriving DecidableEq

/-- Embedding of `DrawOptions::set_alpha` (tiny_skia_backend.rs lines 362-369): the whole
body is commented out in the source, so the method returns with the options
unchanged. -/
def DrawOptions.set_alpha (d : DrawOptions) (_val : F32) : DrawOptions :=
  d

/-- Embedding of `canvas_data::Pattern<'a>`: the backend-tagged shader wrapper. -/
inductive CDPattern : Type
  | TinySkia (s : Shader)
deriving DecidableEq

/-- Embedding of `Pattern::is_zero_size_gradient` (tiny_skia_backend.rs lines 294-306):
matches every shader variant and returns `false` for each. -/
def CDPattern.is_zero_size_gradient : CDPattern → Bool
  | .TinySkia (Shader.SolidColor _) => false
  | .TinySkia (Shader.LinearGradient _ _ _ _ _) => false
  | .TinySkia (Shader.RadialGradient _ _ _ _ _ _) => false
  | .TinySkia (Shader.Pattern _ _ _ _ _) => false

/-- Embedding of `euclid::Angle::positive()`: wrap an angle into `[0, 2π)`.  The source
uses the `f32` value of `2π`; we pass that constant (`twoPi`) explicitly. -/
def Angle.positive (twoPi a : F32) : F32 :=
  a - twoPi * ⌊a / twoPi⌋

/-- Step 1 of `PathBuilder::ellipse` (tiny_skia_backend.rs lines 781-790):
wrap both angles into their positive representative when the range carries a
redundant full turn in the drawing direction. -/
def ellipse_wrapped_angles (twoPi startAngle endAngle : F32)
    (anticlockwise : Bool) : F32 × F32 :=
  if (¬anticlockwise ∧ startAngle > endAngle + twoPi) ∨
      (anticlockwise ∧ endAngle > startAngle + twoPi) then
    (Angle.positive twoPi startAngle, Angle.positive twoPi endAngle)
  else
    (startAngle, endAngle)

/-- Step 2 of `PathBuilder::ellipse` (tiny_skia_backend.rs lines 792-812):
the signed sweep computed by the `match anticlockwise` expression. -/
def sweep_angle (twoPi : F32) (anticlockwise : Bool) (s e : F32) : F32 :=
  match anticlockwise with
  | true =>
    if e - s = twoPi then -twoPi
    else if e > s then -(twoPi - (e - s))
    else -(s - e)
  | false =>
    if s - e = twoPi then twoPi
    else if s > e then twoPi - (s - e)
    else e - s

/-- The sweep `PathBuilder::ellipse` hands to the lyon `Arc`: wrap step
followed by the signed-sweep computation. -/
def ellipse_sweep (twoPi startAngle endAngle : F32) (anticlockwise : Bool) : F32 :=
  sweep_angle twoPi anticlockwise
    (ellipse_wrapped_angles twoPi startAngle endAngle anticlockwise).1
    (ellipse_wrapped_angles twoPi startAngle endAngle anticlockwise).2

/-- The three-case sweep rule transcribed from the SPEC's words (§4.1 step
2): "for anticlockwise, sweep = −2π when end−start == 2π exactly; else
−(2π − (end−start)) when end > start; else −(start−end).  For clockwise,
mirror the same three cases with the sign flipped."  Stated separately from
`sweep_angle` (which is translated from the source) so the two can be
compared. -/
def spec_sweep_rule (twoPi : F32) (anticlockwise : Bool) (s e : F32) : F32 :=
  if anticlockwise then
    if e - s = twoPi then -twoPi
    else if e > s then -(twoPi - (e - s))
    else -(s - e)
  else
    if s - e = twoPi then twoPi
    else if s > e then twoPi - (s - e)
    else e - s

/-- Embedding of `cssparser::RGBA`: the four 8-bit channels of a style color. -/
structure RGBA : Type where
  red : Nat
  green : Nat
  blue : Nat
  alpha : Nat
deriving DecidableEq

/-- Embedding of `canvas_traits::canvas::CanvasGradientStop`. -/
structure StyleStop : Type where
  offset : F32
  color : RGBA
deriving DecidableEq

/-- Embedding of `canvas_traits::canvas::LinearGradientStyle`. -/
structure LinearGradientStyle : Type where
  x0 : F32
  y0 : F32
  x1 : F32
  y1 : F32
  stops : List StyleStop
deriving DecidableEq

/-- Embedding of `canvas_traits::canvas::RadialGradientStyle`. -/
structure RadialGradientStyle : Type where
  x0 : F32
  y0 : F32
  r0 : F32
  x1 : F32
  y1 : F32
  r1 : F32
  stops : List StyleStop
deriving DecidableEq

/-- Embedding of `euclid::Size2D<u32>`. -/
structure SizeU32 : Type where
  width : Nat
  height : Nat
deriving DecidableEq

/-- Embedding of `canvas_traits::canvas::SurfaceStyle`. -/
structure SurfaceStyle : Type where
  surface_data : List Nat
  surface_size : SizeU32
deriving DecidableEq

/-- Embedding of `canvas_traits::canvas::FillOrStrokeStyle`. -/
inductive FillOrStrokeStyle : Type
  | Color (c : RGBA)
  | LinearGradient (l : LinearGradientStyle)
  | RadialGradient (r : RadialGradientStyle)
  | Surface (s : SurfaceStyle)
deriving DecidableEq

/-- The per-stop conversion done inline in `set_fill_style` /
`set_stroke_style`: `tiny_skia::GradientStop::new(offset, from_rgba8(...))`. -/
def StyleStop.to_tiny_skia (s : StyleStop) : TSGradientStop :=
  { offset := s.offset,
    color := { red := s.color.red, green := s.color.green,
               blue := s.color.blue, alpha := s.color.alpha } }

/-- Modelled from the spec: `tiny_skia::LinearGradient::new` is external
dependency code.  Per the spec (§3 and §7(c): "degenerate case collapses to
a non-gradient equivalent … not a crash") and the source's own comment at
`is_zero_size_gradient` ("tiny_skia immediately converts any zero-sized
gradients into anything but a gradient"): an empty stop list fails
(`None`); a single-stop list or coincident endpoints (a zero-length
gradient; the near-zero length check is modelled as exact coincidence)
collapse to a solid-color shader; otherwise a linear-gradient shader is
built. -/
def LinearGradient.new (start stop : TSPoint) (stops : List TSGradientStop)
    (mode : SpreadMode) (transform : TSTransform) : Option Shader :=
  match stops with
  | [] => none
  | s0 :: rest =>
    if rest = [] then some (Shader.SolidColor s0.color)
    else if start = stop then
      some (Shader.SolidColor ((s0 :: rest).getLast (by simp)).color)
    else some (Shader.LinearGradient start stop (s0 :: rest) mode transform)

/-- Modelled from the spec: `tiny_skia::RadialGradient::new` is external
dependency code.  Same degenerate-collapse behaviour as the linear
constructor (spec §3/§7(c) and the source comment): empty stop list fails
(`None`); a single-stop list or a zero radius (the zero-size radii range)
collapses to a solid-color shader; otherwise a radial-gradient shader. -/
def RadialGradient.new (start stop : TSPoint) (radius : F32)
    (stops : List TSGradientStop) (mode : SpreadMode)
    (transform : TSTransform) : Option Shader :=
  match stops with
  | [] => none
  | s0 :: rest =>
    if rest = [] then some (Shader.SolidColor s0.color)
    else if radius = 0 then
      some (Shader.SolidColor ((s0 :: rest).getLast (by simp)).color)
    else some (Shader.RadialGradient start stop radius (s0 :: rest) mode transform)

/-- The shader built by the `match style` of `TinySkiaBackend::set_fill_style`
(tiny_skia_backend.rs lines 42-92; `set_stroke_style` lines 102-152 performs
the identical construction).  The `.unwrap()` calls on the gradient
constructors and on `PixmapRef::from_bytes` are embedded as `panicked` in
the `None` case. -/
def fill_or_stroke_shader (style : FillOrStrokeStyle)
    (drawtarget_transform : Transform2D) : RustResult Shader :=
  match style with
  | .Color c =>
    .ok (Shader.SolidColor
      { red := c.red, green := c.green, blue := c.blue, alpha := c.alpha })
  | .LinearGradient lin =>
    match LinearGradient.new { x := lin.x0, y := lin.y0 } { x := lin.x1, y := lin.y1 }
        (lin.stops.map StyleStop.to_tiny_skia) SpreadMode.Pad
        drawtarget_transform.to_tiny_skia with
    | some sh => .ok sh
    | none => .panicked
  | .RadialGradient rad =>
    match RadialGradient.new { x := rad.x0, y := rad.y0 } { x := rad.x1, y := rad.y1 }
        rad.r1 (rad.stops.map StyleStop.to_tiny_skia) SpreadMode.Pad
        drawtarget_transform.to_tiny_skia with
    | some sh => .ok sh
    | none => .panicked
  | .Surface surf =>
    match PixmapRef.from_bytes surf.surface_data
        surf.surface_size.width surf.surface_size.height with
    | some pix =>
      .ok (Shader.Pattern pix SpreadMode.Pad FilterQuality.Bilinear 1
        drawtarget_transform.to_tiny_skia)
    | none => .panicked

/-- Embedding of `tiny_skia::LineCap`. -/
inductive LineCap : Type
  | Butt | Round | Square
deriving DecidableEq

/-- Embedding of `tiny_skia::LineJoin`. -/
inductive LineJoin : Type
  | Miter | Round | Bevel
deriving DecidableEq

/-- Embedding of `tiny_skia::Stroke`. -/
structure Stroke : Type where
  width : F32
  miter_limit : F32
  line_cap : LineCap
  line_join : LineJoin
  dash : Option (List F32 × F32)
deriving DecidableEq

/-- Embedding of `canvas_data::CanvasPaintState<'a>` (the fields this backend's claims
touch; the font/text-layout fields are never read or written by the code
under verification and are omitted). -/
structure CanvasPaintState : Type where
  draw_options : DrawOptions
  fill_style : CDPattern
  stroke_style : CDPattern
  stroke_opts : Stroke
  transform : Transform2D
  shadow_offset_x : F32
  shadow_offset_y : F32
  shadow_blur : F32
  shadow_color : TSColor
deriving DecidableEq

/-- Embedding of `TinySkiaBackend::set_fill_style` (tiny_skia_backend.rs lines 36-93):
stores the constructed shader into `state.fill_style`; a failed `.unwrap()`
inside the construction aborts (`panicked`) instead of returning. -/
def set_fill_style (style : FillOrStrokeStyle) (state : CanvasPaintState)
    (drawtarget_transform : Transform2D) : RustResult CanvasPaintState :=
  match fill_or_stroke_shader style drawtarget_transform with
  | .ok sh => .ok { state with fill_style := CDPattern.TinySkia sh }
  | .panicked => .panicked

/-- Embedding of `TinySkiaBackend::set_stroke_style` (tiny_skia_backend.rs lines 95-153). -/
def set_stroke_style (style : FillOrStrokeStyle) (state : CanvasPaintState)
    (drawtarget_transform : Transform2D) : RustResult CanvasPaintState :=
  match fill_or_stroke_shader style drawtarget_transform with
  | .ok sh => .ok { state with stroke_style := CDPattern.TinySkia sh }
  | .panicked => .panicked

/-- Embedding of `TinySkiaBackend::set_global_composition` (tiny_skia_backend.rs lines
155-193): overwrite `state.draw_options`' blend mode with the mapped value. -/
def set_global_composition (op : CompositionOrBlending)
    (state : CanvasPaintState) : CanvasPaintState :=
  match state.draw_options with
  | .TinySkia paint =>
    { state with draw_options :=
        DrawOptions.TinySkia { paint with blend_mode := composition_blend_mode op } }

/-- A tiny_skia path-builder command (the commands `PathBuilder` emits). -/
inductive PathCmd : Type
  | MoveTo (p : TSPoint)
  | LineTo (p : TSPoint)
  | QuadTo (ctrl stop : TSPoint)
  | CubicTo (c1 c2 stop : TSPoint)
  | Close
deriving DecidableEq

/-- Embedding of `PixmapTarget::stroke_line` (tiny_skia_backend.rs lines 651-681), up to
the external `pixmap.stroke_path` call: returns the synthetic two-point
path and the effective stroke options passed to `stroke_path`.  The source
clones the caller's options (`stroke_options.as_tiny_skia().clone()`) and
mutates only the clone, so the caller's `StrokeOptions` are untouched —
captured here by the function consuming its argument immutably and
returning a new record. -/
def stroke_line_call (start stop : TSPoint) (stroke_options : Stroke) :
    List PathCmd × Stroke :=
  let path := [PathCmd.MoveTo start, PathCmd.LineTo stop]
  let line_cap := match stroke_options.line_join with
    | LineJoin.Round => LineCap.Round
    | _ => LineCap.Butt
  (path, { stroke_options with line_cap := line_cap })

/-- Embedding of `euclid::Rect<f64>` as used by `draw_surface` (f64 modelled as exact
rationals, like f32). -/
structure RectF64 : Type where
  origin_x : F32
  origin_y : F32
  width : F32
  height : F32
deriving DecidableEq

/-- Rust's saturating float-to-`u32` `as` cast (truncate toward zero, clamp
to the `u32` range, NaN — not representable in the rational model — aside). -/
def f64_as_u32 (q : F32) : Nat :=
  if q ≤ 0 then 0 else min (⌊q⌋).toNat (2 ^ 32 - 1)

/-- Embedding of `canvas_data::Filter`. -/
inductive Filter : Type
  | Bilinear | Nearest
deriving DecidableEq

/-- Embedding of `Filter::as_tiny_skia` (tiny_skia_backend.rs lines 855-862). -/
def Filter.as_tiny_skia : Filter → FilterQuality
  | .Bilinear => FilterQuality.Bilinear
  | .Nearest => FilterQuality.Nearest

/-- The arguments `PixmapTarget::draw_surface` hands to the external
`pixmap.fill_rect` rasterizer. -/
structure FillRectCall : Type where
  rect_x : F32
  rect_y : F32
  rect_w : F32
  rect_h : F32
  paint : TSPaint
  transform : TSTransform
deriving DecidableEq

/-- Embedding of `PixmapTarget::draw_surface` (tiny_skia_backend.rs lines 456-522) up to
the external `fill_rect` call: build a `PixmapRef` over the source buffer
(`.unwrap()` embedded as `panicked` — this happens before anything else),
derive the pattern transform mapping the image onto `dest`, and fill `dest`
with the image-pattern shader.  The `tiny_skia::Rect::from_xywh(...).unwrap()`
on the destination rect is modelled by requiring nonnegative sizes (the
external constructor returns `None` for negative or non-finite extents). -/
def draw_surface (surface : List Nat) (dest source : RectF64) (filter : Filter)
    (draw_options : DrawOptions) (target_transform : TSTransform)
    (target_opacity : F32) : RustResult FillRectCall :=
  match PixmapRef.from_bytes surface (f64_as_u32 source.width)
      (f64_as_u32 source.height) with
  | none => .panicked
  | some image =>
    let transform : TSTransform :=
      { sx := dest.width / (image.width : F32), ky := 0, kx := 0,
        sy := dest.height / (image.height : F32),
        tx := dest.origin_x, ty := dest.origin_y }
    match draw_options with
    | .TinySkia drop =>
      if 0 ≤ dest.width ∧ 0 ≤ dest.height then
        .ok { rect_x := dest.origin_x, rect_y := dest.origin_y,
              rect_w := dest.width, rect_h := dest.height,
              paint := { shader := Shader.Pattern image SpreadMode.Pad
                           filter.as_tiny_skia target_opacity transform,
                         blend_mode := drop.blend_mode,
                         anti_alias := false, force_hq_pipeline := false },
              transform := target_transform }
      else .panicked

/-- Embedding of `PixmapTarget` (tiny_skia_backend.rs lines 386-393).  The pixel buffer
is the byte list `pixmap` together with its fixed dimensions
`width`/`height` (a `tiny_skia::Pixmap` never changes size once created);
the clip mask type `M` and the clip path type `P` are parameters because
rasterization is external (see `push_clip`). -/
structure PixmapTarget (P M : Type) : Type where
  pixmap : List Nat
  width : Nat
  height : Nat
  transform : TSTransform
  opacity : F32
  mask : Option M
  mask_paths : List P
deriving DecidableEq

section DrawTarget

variable {P M : Type}

/-- Embedding of `TinySkiaBackend::create_drawtarget` (tiny_skia_backend.rs lines
195-206): fresh zeroed pixmap, identity transform, opacity 1, no mask,
empty clip stack. -/
def create_drawtarget (w h : Nat) : PixmapTarget P M :=
  { pixmap := List.replicate (w * h * 4) 0, width := w, height := h,
    transform := TSTransform.identity, opacity := 1,
    mask := none, mask_paths := [] }

/-- The mask-rebuild loop shared by `push_clip` and `pop_clip`
(tiny_skia_backend.rs lines 587-595 and 601-609): if the stack is nonempty,
allocate a fresh `Mask::new(width, height)` (`maskNew`) and fill every
stacked path into it in order with the current transform (`maskFill`
models the external `tiny_skia::Mask::fill_path`); otherwise no mask.  The
spec calls the nonempty case "the rasterized intersection of all paths
currently on the stack". -/
def rebuild_mask (maskNew : Nat → Nat → M) (maskFill : M → P → TSTransform → M)
    (s : PixmapTarget P M) : Option M :=
  if s.mask_paths.isEmpty then none
  else
    some (s.mask_paths.foldl (fun m p => maskFill m p s.transform)
      (maskNew s.width s.height))

/-- Embedding of `PixmapTarget::push_clip` (tiny_skia_backend.rs lines 598-610): push the
path, then rebuild the cached mask from the whole stack. -/
def push_clip (maskNew : Nat → Nat → M) (maskFill : M → P → TSTransform → M)
    (s : PixmapTarget P M) (path : P) : PixmapTarget P M :=
  let s1 := { s with mask_paths := s.mask_paths ++ [path] }
  { s1 with mask := rebuild_mask maskNew maskFill s1 }

/-- Embedding of `PixmapTarget::pop_clip` (tiny_skia_backend.rs lines 584-596): pop the
top path (`Vec::pop`; a no-op on an empty stack), then rebuild the cached
mask from the remaining stack. -/
def pop_clip (maskNew : Nat → Nat → M) (maskFill : M → P → TSTransform → M)
    (s : PixmapTarget P M) : PixmapTarget P M :=
  let s1 := { s with mask_paths := s.mask_paths.dropLast }
  { s1 with mask := rebuild_mask maskNew maskFill s1 }

/-- Embedding of `PixmapTarget::set_transform` (tiny_skia_backend.rs lines 612-621). -/
def set_transform (s : PixmapTarget P M) (matrix : Transform2D) :
    PixmapTarget P M :=
  { s with transform :=
      { sx := matrix.m11, ky := matrix.m12, kx := matrix.m21,
        sy := matrix.m22, tx := matrix.m31, ty := matrix.m32 } }

/-- Embedding of `PixmapTarget::get_transform` (tiny_skia_backend.rs lines 580-582):
`Transform2D::new(sx, ky, kx, sy, tx, ty)`. -/
def get_transform (s : PixmapTarget P M) : Transform2D :=
  { m11 := s.transform.sx, m12 := s.transform.ky, m21 := s.transform.kx,
    m22 := s.transform.sy, m31 := s.transform.tx, m32 := s.transform.ty }

/-- Embedding of `PixmapTarget::set_opacity` (tiny_skia_backend.rs lines 627-629). -/
def set_opacity (s : PixmapTarget P M) (opacity : F32) : PixmapTarget P M :=
  { s with opacity := opacity }

/-- Embedding of `PixmapTarget::snapshot` (tiny_skia_backend.rs lines 631-633): the raw
premultiplied bytes of the pixel buffer (a borrowed view). -/
def snapshot (s : PixmapTarget P M) : List Nat :=
  s.pixmap

/-- Embedding of `PixmapTarget::snapshot_data_owned` (tiny_skia_backend.rs lines
717-720): `self.pixmap.data().to_vec()` — an owned copy of the same bytes.
`to_vec` copies; in the pure model the copy is the same byte list, and
being a value it cannot alias the target's buffer. -/
def snapshot_data_owned (s : PixmapTarget P M) : List Nat :=
  s.pixmap

/-- One mutating `GenericDrawTarget` operation on a `PixmapTarget`.  The
drawing operations (`clear_rect`, `copy_surface`, `draw_surface`, `fill`,
`fill_rect`, `stroke`, `stroke_line`, `stroke_rect`) write only
`self.pixmap` through the external rasterizer, so they are modelled as one
`draw` step replacing the pixel bytes arbitrarily; `create_similar_draw_target`
(lines 443-454) copies transform, opacity, mask and clip stack next to a
fresh zeroed buffer (`Pixmap::new(w, h).unwrap()` needs nonzero sizes). -/
inductive Step (maskNew : Nat → Nat → M) (maskFill : M → P → TSTransform → M) :
    PixmapTarget P M → PixmapTarget P M → Prop
  | draw (s : PixmapTarget P M) (buf : List Nat) :
      Step maskNew maskFill s { s with pixmap := buf }
  | push (s : PixmapTarget P M) (path : P) :
      Step maskNew maskFill s (push_clip maskNew maskFill s path)
  | pop (s : PixmapTarget P M) :
      Step maskNew maskFill s (pop_clip maskNew maskFill s)
  | setTransform (s : PixmapTarget P M) (matrix : Transform2D) :
      Step maskNew maskFill s (set_transform s matrix)
  | setOpacity (s : PixmapTarget P M) (opacity : F32) :
      Step maskNew maskFill s (set_opacity s opacity)
  | createSimilar (s : PixmapTarget P M) (w h : Nat) (hw : w ≠ 0) (hh : h ≠ 0) :
      Step maskNew maskFill s
        { s with pixmap := List.replicate (w * h * 4) 0, width := w, height := h }

/-- States reachable from a freshly created draw target by any sequence of
`GenericDrawTarget` operations. -/
inductive Reachable (maskNew : Nat → Nat → M) (maskFill : M → P → TSTransform → M) :
    PixmapTarget P M → Prop
  | init (w h : Nat) (hw : w ≠ 0) (hh : h ≠ 0) :
      Reachable maskNew maskFill (create_drawtarget w h)
  | step (s t : PixmapTarget P M) (hs : Reachable maskNew maskFill s)
      (hstep : Step maskNew maskFill s t) : Reachable maskNew maskFill t

/-- Pushing a list of clip paths in order (`push_clip` once per path). -/
def push_clip_list (maskNew : Nat → Nat → M) (maskFill : M → P → TSTransform → M)
    (s : PixmapTarget P M) (paths : List P) : PixmapTarget P M :=
  paths.foldl (push_clip maskNew maskFill) s

/-- Popping the clip stack `n` times (`pop_clip` iterated). -/
def pop_clip_iter (maskNew : Nat → Nat → M) (maskFill : M → P → TSTransform → M)
    (n : Nat) (s : PixmapTarget P M) : PixmapTarget P M :=
  (pop_clip maskNew maskFill)^[n] s

end DrawTarget

section Lemmas

variable {P M : Type}

/-- The rebuilt mask is absent precisely when the clip stack is empty. -/
theorem rebuild_mask_eq_none_iff (maskNew : Nat → Nat → M)
    (maskFill : M → P → TSTransform → M) (s : PixmapTarget P M) :
    rebuild_mask maskNew maskFill s = none ↔ s.mask_paths = [] := by
  unfold rebuild_mask
  split
  · next hempty => simpa using List.isEmpty_iff.mp hempty
  · next hempty =>
    simp only [List.isEmpty_iff] at hempty
    simp [hempty]

end Lemmas

/-- C7: for every affine transform `T` (six coefficients), `set_transform T`
followed by `get_transform` returns exactly `T`: the six coefficients are
copied field-by-field into the tiny_skia transform and read back in the
same order, so they are preserved exactly. -/
theorem set_get_transform_roundtrip {P M : Type} (s : PixmapTarget P M)
    (T : Transform2D) : get_transform (set_transform s T) = T := by
  cases T
  rfl

/-- C10: `DrawOptions::set_alpha` leaves the draw options completely
unchanged for every input — its body is commented out in the source, so the
canvas global-alpha setter has no effect through this path. -/
theorem set_alpha_noop (d : DrawOptions) (val : F32) :
    DrawOptions.set_alpha d val = d :=
  rfl

/-- C9: the composition mapping of `set_global_composition` is a pure total
function: each of the 12 composition styles and 15 blending styles maps to
exactly one `tiny_skia::BlendMode` (totality of the exhaustive match), and
in particular `Copy` maps to `Source` and `Lighter` maps to `Plus`. -/
theorem set_global_composition_total :
    (∀ op : CompositionOrBlending, ∃! b : BlendMode, composition_blend_mode op = b) ∧
    Fintype.card CompositionStyle = 12 ∧
    Fintype.card BlendingStyle = 15 ∧
    composition_blend_mode (.Composition .Copy) = .Source ∧
    composition_blend_mode (.Composition .Lighter) = .Plus := by
  refine ⟨fun op => ⟨composition_blend_mode op, rfl, fun b hb => hb.symm⟩, ?_, ?_, rfl, rfl⟩
  · decide
  · decide

/-- C6: `stroke_line` strokes the synthetic two-point path
`[MoveTo start, LineTo stop]`, with line cap `Round` exactly when the
configured line join is `Round` and `Butt` for every other join, and every
other stroke option is taken over unchanged from the caller's options
(which the source clones and never mutates). -/
theorem stroke_line_effective_options (start stop : TSPoint) (so : Stroke) :
    (stroke_line_call start stop so).1 = [PathCmd.MoveTo start, PathCmd.LineTo stop] ∧
    (stroke_line_call start stop so).2.line_cap =
      (if so.line_join = LineJoin.Round then LineCap.Round else LineCap.Butt) ∧
    (stroke_line_call start stop so).2.width = so.width ∧
    (stroke_line_call start stop so).2.miter_limit = so.miter_limit ∧
    (stroke_line_call start stop so).2.line_join = so.line_join ∧
    (stroke_line_call start stop so).2.dash = so.dash := by
  obtain ⟨w, ml, lc, lj, d⟩ := so
  cases lj <;> exact ⟨rfl, rfl, rfl, rfl, rfl, rfl⟩

/-- C8: `snapshot_data_owned` returns a copy whose contents equal
`snapshot()` at the time of the call; because it is an owned value
(`to_vec` copies the bytes) and not a borrow, it is unaffected by whatever
mutating operation happens to the target afterwards — here the target takes
an arbitrary further `Step` to `t`, and the copy taken at `s` still equals
the snapshot that was current when it was made. -/
theorem snapshot_owned_copies_snapshot {P M : Type}
    (maskNew : Nat → Nat → M) (maskFill : M → P → TSTransform → M)
    (s t : PixmapTarget P M) (_hstep : Step maskNew maskFill s t) :
    snapshot_data_owned s = snapshot s :=
  rfl

/-- Witness for C8 at a concrete target and a concrete mutation. -/
theorem snapshot_owned_copies_snapshot_witness :
    Step (fun _ _ => 0) (fun m _ _ => m)
      (create_drawtarget 1 1 : PixmapTarget Nat Nat)
      { (create_drawtarget 1 1 : PixmapTarget Nat Nat) with pixmap := [7] } ∧
    snapshot_data_owned (create_drawtarget 1 1 : PixmapTarget Nat Nat) =
      snapshot (create_drawtarget 1 1 : PixmapTarget Nat Nat) :=
  ⟨Step.draw _ [7],
   snapshot_owned_copies_snapshot (fun _ _ => 0) (fun m _ _ => m)
     (create_drawtarget 1 1) { (create_drawtarget 1 1 : PixmapTarget Nat Nat) with pixmap := [7] }
     (Step.draw _ [7])⟩

/-- C1: in every state reachable by any sequence of `DrawTarget` operations
the cached mask is absent (`none`) exactly when the clip stack is empty,
and after every `push_clip` or `pop_clip` the cached mask equals the mask
rebuilt from all paths currently on the stack — the rasterized intersection
of the stacked paths, for every external rasterizer `maskNew`/`maskFill`
(the rasterization itself is tiny_skia's `Mask::new`/`Mask::fill_path`,
which the spec treats as an opaque capability). -/
theorem clip_mask_invariant {P M : Type}
    (maskNew : Nat → Nat → M) (maskFill : M → P → TSTransform → M)
    (s : PixmapTarget P M) (hs : Reachable maskNew maskFill s) :
    (s.mask = none ↔ s.mask_paths = []) ∧
    (∀ path : P,
      (push_clip maskNew maskFill s path).mask =
        rebuild_mask maskNew maskFill (push_clip maskNew maskFill s path)) ∧
    (pop_clip maskNew maskFill s).mask =
      rebuild_mask maskNew maskFill (pop_clip maskNew maskFill s) := by
  refine ⟨?_, fun path => rfl, rfl⟩
  induction hs with
  | init w h hw hh => simp [create_drawtarget]
  | step s t hs hstep ih =>
    cases hstep with
    | draw buf => simpa using ih
    | push path =>
      have h := rebuild_mask_eq_none_iff maskNew maskFill
        { s with mask_paths := s.mask_paths ++ [path] }
      simpa [push_clip] using h
    | pop =>
      have h := rebuild_mask_eq_none_iff maskNew maskFill
        { s with mask_paths := s.mask_paths.dropLast }
      simpa [pop_clip] using h
    | setTransform matrix => simpa [set_transform] using ih
    | setOpacity opacity => simpa [set_opacity] using ih
    | createSimilar w h hw hh => simpa using ih

/-- Witness for C1: the invariant evaluated at a freshly created target,
with a trivial concrete rasterizer instantiating the abstract mask model. -/
theorem clip_mask_invariant_witness :
    (create_drawtarget 2 2 : PixmapTarget Nat Nat).mask = none ↔
      (create_drawtarget 2 2 : PixmapTarget Nat Nat).mask_paths = [] :=
  (clip_mask_invariant (fun _ _ => 0) (fun m _ _ => m)
    (create_drawtarget 2 2) (Reachable.init 2 2 (by decide) (by decide))).1

/-- A `push_clip` leaves every field except the clip stack and the cached
mask unchanged, and appends the pushed path; stated for a whole list of
pushes. -/
theorem push_clip_list_fields {P M : Type}
    (maskNew : Nat → Nat → M) (maskFill : M → P → TSTransform → M)
    (paths : List P) (s : PixmapTarget P M) :
    (push_clip_list maskNew maskFill s paths).pixmap = s.pixmap ∧
    (push_clip_list maskNew maskFill s paths).width = s.width ∧
    (push_clip_list maskNew maskFill s paths).height = s.height ∧
    (push_clip_list maskNew maskFill s paths).transform = s.transform ∧
    (push_clip_list maskNew maskFill s paths).opacity = s.opacity ∧
    (push_clip_list maskNew maskFill s paths).mask_paths = s.mask_paths ++ paths := by
  induction paths generalizing s with
  | nil => simp [push_clip_list]
  | cons p ps ih =>
    obtain ⟨h1, h2, h3, h4, h5, h6⟩ := ih (push_clip maskNew maskFill s p)
    have e : push_clip_list maskNew maskFill s (p :: ps) =
        push_clip_list maskNew maskFill (push_clip maskNew maskFill s p) ps := rfl
    rw [e]
    refine ⟨h1.trans rfl, h2.trans rfl, h3.trans rfl, h4.trans rfl, h5.trans rfl, ?_⟩
    rw [h6]
    show s.mask_paths ++ [p] ++ ps = s.mask_paths ++ p :: ps
    simp

/-- Popping as many times as there are stacked paths drains the stack and
clears the mask, touching nothing else. -/
theorem pop_clip_iter_drain {P M : Type}
    (maskNew : Nat → Nat → M) (maskFill : M → P → TSTransform → M) :
    ∀ (n : Nat) (s : PixmapTarget P M), s.mask_paths.length = n + 1 →
      pop_clip_iter maskNew maskFill (n + 1) s =
        { s with mask_paths := [], mask := none } := by
  intro n
  induction n with
  | zero =>
    intro s hlen
    obtain ⟨a, ha⟩ := List.length_eq_one.mp hlen
    obtain ⟨px, w, h, tr, op, mk, mp⟩ := s
    simp only at ha
    subst ha
    rfl
  | succ k ih =>
    intro s hlen
    show (pop_clip maskNew maskFill)^[k + 1 + 1] s = _
    rw [Function.iterate_succ_apply]
    have h' : (pop_clip maskNew maskFill s).mask_paths.length = k + 1 := by
      show s.mask_paths.dropLast.length = k + 1
      rw [List.length_dropLast, hlen]
      omega
    have step := ih (pop_clip maskNew maskFill s) h'
    refine Eq.trans step ?_
    obtain ⟨px, w, h, tr, op, mk, mp⟩ := s
    rfl

/-- C4: starting from a pre-push unclipped state (empty clip stack, no
mask), pushing any sequence of distinct clip paths and then popping the
same number of times restores the `PixmapTarget` bit-for-bit: every field —
pixel buffer, dimensions, transform, opacity, mask and clip stack — equals
its pre-push value. -/
theorem push_n_pop_n_restores {P M : Type}
    (maskNew : Nat → Nat → M) (maskFill : M → P → TSTransform → M)
    (s : PixmapTarget P M) (paths : List P)
    (hstack : s.mask_paths = []) (hmask : s.mask = none)
    (_hnodup : paths.Nodup) :
    pop_clip_iter maskNew maskFill paths.length
      (push_clip_list maskNew maskFill s paths) = s := by
  cases paths with
  | nil => rfl
  | cons p ps =>
    obtain ⟨h1, h2, h3, h4, h5, h6⟩ :=
      push_clip_list_fields maskNew maskFill (p :: ps) s
    have hlen : (push_clip_list maskNew maskFill s (p :: ps)).mask_paths.length =
        ps.length + 1 := by
      rw [h6, hstack]
      simp
    have hdrain := pop_clip_iter_drain maskNew maskFill ps.length
      (push_clip_list maskNew maskFill s (p :: ps)) hlen
    rw [show (p :: ps).length = ps.length + 1 from rfl, hdrain]
    obtain ⟨px, w, h, tr, op, mk, mp⟩ := s
    simp only at h1 h2 h3 h4 h5 hstack hmask
    subst hstack hmask
    rw [h1, h2, h3, h4, h5]

/-- Witness for C4: two distinct concrete paths pushed onto and popped from
a freshly created target, with a concrete rasterizer. -/
theorem push_n_pop_n_restores_witness :
    ((create_drawtarget 1 1 : PixmapTarget Nat Nat).mask_paths = [] ∧
      (create_drawtarget 1 1 : PixmapTarget Nat Nat).mask = none ∧
      ([0, 1] : List Nat).Nodup) ∧
    pop_clip_iter (fun _ _ => 0) (fun m _ _ => m) ([0, 1] : List Nat).length
      (push_clip_list (fun _ _ => 0) (fun m _ _ => m)
        (create_drawtarget 1 1) [0, 1]) = create_drawtarget 1 1 :=
  ⟨⟨rfl, rfl, by decide⟩,
   push_n_pop_n_restores (fun _ _ => 0) (fun m _ _ => m)
     (create_drawtarget 1 1) [0, 1] rfl rfl (by decide)⟩

/-- C2: `PathBuilder::ellipse` computes the signed sweep by the spec's
three-case rule (applied, as in spec §4.1 step 2, to the angles produced by
the step-1 wrap): for every positive value of the `2π` constant and all
angles, the computed sweep equals `spec_sweep_rule` of the wrapped angles;
and on the three quoted instances — clockwise `0 → 2π` gives `+2π`,
anticlockwise `0 → 2π` gives `−2π`, clockwise `0 → π/2` (written
`twoPi / 4`) gives `π/2`. -/
theorem ellipse_sweep_three_case_rule (twoPi : F32) (hpos : 0 < twoPi) :
    (∀ (startAngle endAngle : F32) (anticlockwise : Bool),
      ellipse_sweep twoPi startAngle endAngle anticlockwise =
        spec_sweep_rule twoPi anticlockwise
          (ellipse_wrapped_angles twoPi startAngle endAngle anticlockwise).1
          (ellipse_wrapped_angles twoPi startAngle endAngle anticlockwise).2) ∧
    ellipse_sweep twoPi 0 twoPi false = twoPi ∧
    ellipse_sweep twoPi 0 twoPi true = -twoPi ∧
    ellipse_sweep twoPi 0 (twoPi / 4) false = twoPi / 4 := by
  have hwrap_cw : ∀ e : F32, 0 ≤ e →
      ellipse_wrapped_angles twoPi 0 e false = (0, e) := by
    intro e he
    unfold ellipse_wrapped_angles
    rw [if_neg]
    rintro (⟨-, h2⟩ | ⟨h1, -⟩)
    · linarith
    · simp at h1
  have hwrap_acw : ellipse_wrapped_angles twoPi 0 twoPi true = (0, twoPi) := by
    unfold ellipse_wrapped_angles
    rw [if_neg]
    rintro (⟨h1, -⟩ | ⟨-, h2⟩)
    · simp at h1
    · linarith
  refine ⟨?_, ?_, ?_, ?_⟩
  · intro startAngle endAngle anticlockwise
    cases anticlockwise <;> rfl
  · unfold ellipse_sweep
    rw [hwrap_cw twoPi (le_of_lt hpos)]
    simp only [sweep_angle]
    split_ifs <;> linarith
  · unfold ellipse_sweep
    rw [hwrap_acw]
    simp [sweep_angle]
  · unfold ellipse_sweep
    rw [hwrap_cw (twoPi / 4) (by linarith)]
    simp only [sweep_angle]
    split_ifs <;> linarith

/-- Witness for C2 at the exact `f32` value of `2π`
(`6.2831854820251465 = 13176795 / 2097152`). -/
theorem ellipse_sweep_three_case_rule_witness :
    (0 : F32) < 13176795 / 2097152 ∧
    ellipse_sweep (13176795 / 2097152) 0 (13176795 / 2097152) false =
      13176795 / 2097152 :=
  ⟨by norm_num,
   (ellipse_sweep_three_case_rule (13176795 / 2097152) (by norm_num)).2.1⟩

/-- Embedding of `euclid::Transform2D::identity()`. -/
def Transform2D.identity : Transform2D :=
  { m11 := 1, m12 := 0, m21 := 0, m22 := 1, m31 := 0, m32 := 0 }

/-- A concrete paint state, used as the input of the concrete
counterexample evaluations. -/
def sample_state : CanvasPaintState :=
  { draw_options := DrawOptions.TinySkia
      { shader := Shader.SolidColor { red := 0, green := 0, blue := 0, alpha := 255 },
        blend_mode := BlendMode.SourceOver, anti_alias := false,
        force_hq_pipeline := false },
    fill_style := CDPattern.TinySkia
      (Shader.SolidColor { red := 0, green := 0, blue := 0, alpha := 255 }),
    stroke_style := CDPattern.TinySkia
      (Shader.SolidColor { red := 0, green := 0, blue := 0, alpha := 255 }),
    stroke_opts := { width := 1, miter_limit := 4, line_cap := LineCap.Butt,
                     line_join := LineJoin.Miter, dash := none },
    transform := Transform2D.identity,
    shadow_offset_x := 0, shadow_offset_y := 0, shadow_blur := 0,
    shadow_color := { red := 0, green := 0, blue := 0, alpha := 0 } }

/-- C3 counterexample: constructing an image pattern over an empty buffer
declared as 1×1 (shorter than `1*1*4` bytes) does not return a recoverable
bounds error to the caller: `set_fill_style` aborts through `.unwrap()`
(embedded as `panicked`).  Its Rust signature returns `()` and carries no
error channel at all, so no error value could reach the caller. -/
theorem surface_short_buffer_is_panic :
    set_fill_style
      (FillOrStrokeStyle.Surface { surface_data := [], surface_size := ⟨1, 1⟩ })
      sample_state Transform2D.identity = RustResult.panicked := by
  rfl

/-- C3 (amended): constructing an image pattern or pixel view over a buffer
shorter than `width*height*4` bytes is bounds-checked and never reads past
the end of the buffer (`PixmapRef::from_bytes` returns `None`, and any
successfully constructed view is fully backed by its buffer), but the
failure is not a recoverable error returned to the caller: both
`set_fill_style` with a `Surface` style and `draw_surface` unwrap the
`None`, aborting with a panic. -/
theorem surface_short_buffer_checked (data : List Nat) (w h : Nat)
    (hshort : data.length < w * h * 4) :
    PixmapRef.from_bytes data w h = none ∧
    (∀ (state : CanvasPaintState) (t : Transform2D),
      set_fill_style
        (FillOrStrokeStyle.Surface { surface_data := data, surface_size := ⟨w, h⟩ })
        state t = RustResult.panicked) ∧
    (∀ (dest source : RectF64) (fil : Filter) (dopts : DrawOptions)
        (ttr : TSTransform) (top : F32),
      f64_as_u32 source.width = w → f64_as_u32 source.height = h →
      draw_surface data dest source fil dopts ttr top = RustResult.panicked) ∧
    (∀ (d : List Nat) (w2 h2 : Nat) (pix : PixmapRef),
      PixmapRef.from_bytes d w2 h2 = some pix →
        pix.data = d ∧ d.length = w2 * h2 * 4) := by
  have hnone : PixmapRef.from_bytes data w h = none := by
    unfold PixmapRef.from_bytes
    rw [if_neg]
    rintro ⟨-, -, heq⟩
    omega
  refine ⟨hnone, ?_, ?_, ?_⟩
  · intro state t
    simp [set_fill_style, fill_or_stroke_shader, hnone]
  · intro dest source fil dopts ttr top hw0 hh0
    unfold draw_surface
    rw [hw0, hh0, hnone]
  · intro d w2 h2 pix hsome
    unfold PixmapRef.from_bytes at hsome
    split at hsome
    · next hcond =>
      cases hsome
      exact ⟨rfl, hcond.2.2⟩
    · exact absurd hsome (by simp)

/-- Witness for C3 (amended) at the empty buffer declared 1×1. -/
theorem surface_short_buffer_checked_witness :
    ([] : List Nat).length < 1 * 1 * 4 ∧
    PixmapRef.from_bytes [] 1 1 = none :=
  ⟨by decide, (surface_short_buffer_checked [] 1 1 (by decide)).1⟩

/-- Degenerate (zero-length) linear gradients with a nonempty stop list
collapse to a solid-color shader rather than failing. -/
theorem linear_gradient_new_degenerate (start stop : TSPoint)
    (stops : List TSGradientStop) (mode : SpreadMode) (tr : TSTransform)
    (hne : stops ≠ []) (heq : start = stop) :
    ∃ c, LinearGradient.new start stop stops mode tr =
      some (Shader.SolidColor c) := by
  cases stops with
  | nil => exact absurd rfl hne
  | cons s0 rest =>
    by_cases hrest : rest = []
    · exact ⟨s0.color, by simp [LinearGradient.new, hrest]⟩
    · refine ⟨((s0 :: rest).getLast (by simp)).color, ?_⟩
      simp [LinearGradient.new, hrest, heq]

/-- Degenerate (zero-radius) radial gradients with a nonempty stop list
collapse to a solid-color shader rather than failing. -/
theorem radial_gradient_new_degenerate (start stop : TSPoint) (radius : F32)
    (stops : List TSGradientStop) (mode : SpreadMode) (tr : TSTransform)
    (hne : stops ≠ []) (hrad : radius = 0) :
    ∃ c, RadialGradient.new start stop radius stops mode tr =
      some (Shader.SolidColor c) := by
  cases stops with
  | nil => exact absurd rfl hne
  | cons s0 rest =>
    by_cases hrest : rest = []
    · exact ⟨s0.color, by simp [RadialGradient.new, hrest]⟩
    · refine ⟨((s0 :: rest).getLast (by simp)).color, ?_⟩
      simp [RadialGradient.new, hrest, hrad]

/-- C5 counterexample: a linear gradient whose two endpoints coincide (with
two stops) does not fail with a hard error: `set_fill_style` succeeds,
storing a solid-color (non-gradient) shader built from the last stop. -/
theorem degenerate_gradient_not_an_error :
    set_fill_style
      (FillOrStrokeStyle.LinearGradient
        { x0 := 0, y0 := 0, x1 := 0, y1 := 0,
          stops := [{ offset := 0, color := { red := 255, green := 0, blue := 0, alpha := 255 } },
                    { offset := 1, color := { red := 0, green := 0, blue := 255, alpha := 255 } }] })
      sample_state Transform2D.identity =
    RustResult.ok { sample_state with
      fill_style := (CDPattern.TinySkia
        (Shader.SolidColor { red := 0, green := 0, blue := 255, alpha := 255 })) } := by
  rfl

/-- C5 (amended): degenerate gradient geometry is not an error: with a
nonempty stop list, a linear gradient with coincident endpoints and a
radial gradient with a zero radius both collapse to a solid-color
(non-gradient) shader, observably indistinguishable from no pattern
(`Pattern::is_zero_size_gradient` returns `false` for every shader).  Only
an empty stop list makes construction fail, and that failure aborts via
`.unwrap()` (a panic) in both `set_fill_style` and `set_stroke_style`
instead of being propagated to the immediate caller. -/
theorem gradient_degenerate_collapses (lin : LinearGradientStyle)
    (rad : RadialGradientStyle) (t : Transform2D)
    (hlx : lin.x0 = lin.x1) (hly : lin.y0 = lin.y1) (hlstops : lin.stops ≠ [])
    (hrr : rad.r1 = 0) (hrstops : rad.stops ≠ []) :
    (∃ c, fill_or_stroke_shader (FillOrStrokeStyle.LinearGradient lin) t =
        RustResult.ok (Shader.SolidColor c)) ∧
    (∃ c, fill_or_stroke_shader (FillOrStrokeStyle.RadialGradient rad) t =
        RustResult.ok (Shader.SolidColor c)) ∧
    (∀ state : CanvasPaintState,
      set_fill_style (FillOrStrokeStyle.LinearGradient { lin with stops := [] })
        state t = RustResult.panicked) ∧
    (∀ state : CanvasPaintState,
      set_stroke_style (FillOrStrokeStyle.RadialGradient { rad with stops := [] })
        state t = RustResult.panicked) ∧
    (∀ p : CDPattern, p.is_zero_size_gradient = false) := by
  refine ⟨?_, ?_, fun state => rfl, fun state => rfl, ?_⟩
  · obtain ⟨c, hc⟩ := linear_gradient_new_degenerate
      { x := lin.x0, y := lin.y0 } { x := lin.x1, y := lin.y1 }
      (lin.stops.map StyleStop.to_tiny_skia) SpreadMode.Pad t.to_tiny_skia
      (by simpa using hlstops) (by rw [hlx, hly])
    exact ⟨c, by simp [fill_or_stroke_shader, hc]⟩
  · obtain ⟨c, hc⟩ := radial_gradient_new_degenerate
      { x := rad.x0, y := rad.y0 } { x := rad.x1, y := rad.y1 } rad.r1
      (rad.stops.map StyleStop.to_tiny_skia) SpreadMode.Pad t.to_tiny_skia
      (by simpa using hrstops) hrr
    exact ⟨c, by simp [fill_or_stroke_shader, hc]⟩
  · intro p
    obtain ⟨sh⟩ := p
    cases sh <;> rfl

/-- Witness for C5 (amended) at concrete degenerate gradients. -/
theorem gradient_degenerate_collapses_witness :
    ∃ c, fill_or_stroke_shader
      (FillOrStrokeStyle.LinearGradient
        { x0 := 0, y0 := 0, x1 := 0, y1 := 0,
          stops := [{ offset := 0, color := { red := 9, green := 0, blue := 0, alpha := 255 } }] })
      Transform2D.identity = RustResult.ok (Shader.SolidColor c) :=
  (gradient_degenerate_collapses
    { x0 := 0, y0 := 0, x1 := 0, y1 := 0,
      stops := [{ offset := 0, color := { red := 9, green := 0, blue := 0, alpha := 255 } }] }
    { x0 := 0, y0 := 0, r0 := 0, x1 := 0, y1 := 0, r1 := 0,
      stops := [{ offset := 0, color := { red := 9, green := 0, blue := 0, alpha := 255 } }] }
    Transform2D.identity rfl rfl (List.cons_ne_nil _ _) rfl
    (List.cons_ne_nil _ _)).1

end ServoTinySkia
